import Mathlib

/-!
Shallow embedding of the HLS stream-supervisor server
(`src/unnamed/part_000`, the current server, and
`src/Build/FFmpeg-NodeJS-VAAPI/stream-server.old.js`, the older variant).

The registry `active` is a JS `Map` from channel id to a per-stream state
object; we model it as an association list.  Times are milliseconds as `Nat`.
A child-process handle is modelled by its `pid` together with the Node
`killed` flag (`subprocess.killed` is set to `true` when a signal was
successfully sent via `subprocess.kill`; it does not indicate that the
process has exited).
-/

namespace HLS

/-- The per-stream state object: `{ proc, start, lastAccess, intentionalStop }`
(the old variant also stores `inputUrl`, irrelevant to the claims).
`pid` identifies the process handle; `procKilled` is the handle's Node
`killed` flag. -/
structure StreamState where
  pid : Nat
  procKilled : Bool
  start : Nat
  lastAccess : Nat
  intentionalStop : Bool
  deriving Repr, DecidableEq

/-- Global counters: `stats = { totalStarted, totalStopped, totalErrors, bandwidth }`
(startTime omitted; it never changes). -/
structure Stats where
  totalStarted : Nat
  totalStopped : Nat
  totalErrors : Nat
  bandwidth : Nat
  deriving Repr, DecidableEq

/-- The server's mutable global state: the `active` map and the counters.
`nextPid` is the pid the OS would hand to the next spawned process. -/
structure ServerState where
  active : List (String × StreamState)
  stats : Stats
  nextPid : Nat
  deriving Repr, DecidableEq

/-- `active.get(ch)` on the association-list model. -/
def lookupCh (m : List (String × StreamState)) (ch : String) : Option StreamState :=
  (m.find? (fun p => p.1 == ch)).map (fun p => p.2)

/-- `active.delete(ch)`. -/
def removeCh (m : List (String × StreamState)) (ch : String) :
    List (String × StreamState) :=
  m.filter (fun p => !(p.1 == ch))

/-- In-place mutation of the state object stored under `ch`. -/
def updateCh (m : List (String × StreamState)) (ch : String) (s : StreamState) :
    List (String × StreamState) :=
  m.map (fun p => if p.1 == ch then (ch, s) else p)

/-- The playlists directory: for each channel id, the lines of its `.m3u`
file when that file exists (`fs.existsSync` + `fs.readFileSync` + split). -/
structure PlaylistsEnv where
  playlistFile : String → Option (List String)

/-- `l.trim()` on a line's characters: strip whitespace from both ends. -/
def trimChars (cs : List Char) : List Char :=
  ((cs.dropWhile Char.isWhitespace).reverse.dropWhile Char.isWhitespace).reverse

/-- `l && !l.startsWith('#')` on a trimmed line: the line is non-empty and
its first character is not the comment marker. -/
def urlLine (cs : List Char) : Bool :=
  !cs.isEmpty && !(cs.headD ' ' == '#')

/-- `parseM3U`: trim every line, return the first non-empty line that does
not start with a comment marker; `none` models the thrown error. -/
def parseM3U (lines : List String) : Option (List Char) :=
  (lines.map (fun l => trimChars l.data)).find? urlLine

/-- What one call to `startStream` did: the new global state, whether an
ffmpeg process was spawned, and whether a configuration failure was logged. -/
structure StartResult where
  state : ServerState
  spawned : Bool
  errorLogged : Bool
  deriving Repr, DecidableEq

/-- The state object a fresh spawn stores:
`startedAt = lastAccessAt = now`, no intentional stop, no signal sent. -/
def freshEntry (now pid : Nat) : StreamState :=
  { pid := pid, procKilled := false, start := now, lastAccess := now,
    intentionalStop := false }

/-- The successful tail of `startStream`: spawn the process, insert the
fresh entry, bump `totalStarted`. -/
def spawnEntry (now : Nat) (ch : String) (st : ServerState) : ServerState :=
  { active := (ch, freshEntry now st.nextPid) :: st.active,
    stats := { st.stats with totalStarted := st.stats.totalStarted + 1 },
    nextPid := st.nextPid + 1 }

/-- `startStream(ch, retryCount = 0)` (identical control flow in both
variants): bail out if the channel is already active; bail out logging an
error if the playlist file is missing or yields no URL; otherwise spawn,
insert the fresh entry and bump `totalStarted`.  `retryCount` is only
captured by the exit-handler closure, so it does not appear in the state. -/
def startStream (env : PlaylistsEnv) (now : Nat) (ch : String) (_retryCount : Nat)
    (st : ServerState) : StartResult :=
  if (lookupCh st.active ch).isSome then
    { state := st, spawned := false, errorLogged := false }
  else
    match env.playlistFile ch with
    | none => { state := st, spawned := false, errorLogged := true }
    | some lines =>
      match parseM3U lines with
      | none => { state := st, spawned := false, errorLogged := true }
      | some _url => { state := spawnEntry now ch st, spawned := true, errorLogged := false }

/-- Observable effects of one run of the `proc.on('exit')` handler:
whether the working directory was deleted, and the restart that was
scheduled via `setTimeout`, if any, as `(delay ms, retryCount argument)`. -/
structure ExitEvents where
  deletedDir : Bool
  restartScheduled : Option (Nat × Nat)
  deriving Repr, DecidableEq

/-- The exit handler of `stream-server.old.js` (lines 148-170): remove the
entry, bump `totalStopped`, delete the working directory unconditionally
(`await safeDeleteFolder(dir)`), then schedule
`startStream(ch, retryCount + 1)` after 5000 ms unless the stop was
intentional or the retry budget is exhausted.  `s` is the stream-state
object the handler's closure captured; `rc` its captured `retryCount`. -/
def exitObserverOld (ch : String) (rc : Nat) (s : StreamState) (st : ServerState) :
    ServerState × ExitEvents :=
  let st1 : ServerState :=
    { st with active := removeCh st.active ch,
              stats := { st.stats with totalStopped := st.stats.totalStopped + 1 } }
  let restart : Option (Nat × Nat) :=
    if s.intentionalStop = false ∧ rc < 3 then some (5000, rc + 1) else none
  (st1, { deletedDir := true, restartScheduled := restart })

/-- The exit handler of `src/unnamed/part_000` (lines 148-156): same
restart rule and registry/counter updates, but the working directory is
deleted only when `state.intentionalStop` is true
(`if(state.intentionalStop) fsp.rm(dir, ...)`). -/
def exitObserverNew (ch : String) (rc : Nat) (s : StreamState) (st : ServerState) :
    ServerState × ExitEvents :=
  let st1 : ServerState :=
    { st with active := removeCh st.active ch,
              stats := { st.stats with totalStopped := st.stats.totalStopped + 1 } }
  let restart : Option (Nat × Nat) :=
    if s.intentionalStop = false ∧ rc < 3 then some (5000, rc + 1) else none
  (st1, { deletedDir := s.intentionalStop, restartScheduled := restart })

/-- Observable effects of `stopStream(ch)` (old variant, lines 178-193):
the new state, the returned boolean, the pid that received `SIGTERM`
(if any), and the pid targeted by the forced-kill timer scheduled for
5000 ms later (if any). -/
structure StopResult where
  state : ServerState
  retVal : Bool
  sigTermSent : Option Nat
  forceKillTarget : Option Nat
  deriving Repr, DecidableEq

/-- `stopStream(ch)`: if no entry, return `false`; otherwise set
`intentionalStop = true`, send `SIGTERM` (which sets the handle's Node
`killed` flag, the signal having been delivered to the live process), and
schedule the forced-kill timer against the captured handle `s.proc`. -/
def stopStream (ch : String) (st : ServerState) : StopResult :=
  match lookupCh st.active ch with
  | none => { state := st, retVal := false, sigTermSent := none, forceKillTarget := none }
  | some s =>
    let s1 : StreamState := { s with intentionalStop := true, procKilled := true }
    { state := { st with active := updateCh st.active ch s1 },
      retVal := true, sigTermSent := some s.pid, forceKillTarget := some s.pid }

/-- The body of the forced-kill timer,
`if (s.proc && !s.proc.killed) s.proc.kill('SIGKILL')`: given the captured
handle's `killed` flag at fire time, does it send `SIGKILL`? -/
def forceKillFires (procKilledFlag : Bool) : Bool := !procKilledFlag

/-- `INACTIVITY_LIMIT = 120_000` ms. -/
def INACTIVITY_LIMIT : Nat := 120000

/-- One entry's treatment by the inactivity sweep: if
`now - s.lastAccess > INACTIVITY_LIMIT`, mark the stop intentional and send
`SIGTERM` (the current server sets the flag and kills inline; the old
variant reaches the same per-entry effect through `stopStream`). -/
def reapEntry (now : Nat) (p : String × StreamState) : String × StreamState :=
  if INACTIVITY_LIMIT < now - p.2.lastAccess then
    (p.1, { p.2 with intentionalStop := true, procKilled := true })
  else p

/-- The `setInterval` inactivity sweep over every live entry. -/
def reaperSweep (now : Nat) (st : ServerState) : ServerState :=
  { st with active := st.active.map (reapEntry now) }

/-- Outcome of the manifest request's poll loop (old variant, lines
248-277): the manifest was served (`res.sendFile`, carrying the file's
byte size), the 503 "not ready" response was sent, or the consumer had
disconnected and nothing was sent. -/
inductive WaitOutcome where
  | served : Nat → WaitOutcome
  | notReady : WaitOutcome
  | silent : WaitOutcome
  deriving Repr, DecidableEq

/-- Result of one run of the poll loop: its outcome, the elapsed-time
instants (values of `waited`) at which `fsp.stat(playlist)` was attempted,
and the amount added to `stats.bandwidth`. -/
structure WaitResult where
  outcome : WaitOutcome
  polls : List Nat
  bwAdded : Nat
  deriving Repr, DecidableEq

/-- `st.size > 0` on the result of `fsp.stat` (`none` = the stat threw,
i.e. the manifest file does not exist yet). -/
def sizeOk (o : Option Nat) : Bool :=
  match o with
  | some sz => decide (0 < sz)
  | none => false

/-- The byte size carried by a successful stat. -/
def mSize (o : Option Nat) : Nat := o.getD 0

/-- The poll loop `while (waited < 15000 && clientConnected) { ... }`:
`fileSize t` is the manifest's stat result at elapsed time `t`,
`connected t` the `clientConnected` flag at elapsed time `t`.  Each
iteration stats the file; a non-empty file is served at once (adding its
size to the bandwidth counter); otherwise the loop sleeps `delay` ms,
adds the slept time to `waited` and grows `delay` by 500 up to the 3000 cap.
After the loop, `if (clientConnected)` sends the 503, else nothing.
`fuel` bounds the recursion; each iteration sleeps at least 1000 ms, so any
`fuel` with `15000 < waited + 1000 * fuel` is never exhausted
(`pollLoop_fuel_stable` below). -/
def pollLoop (fileSize : Nat → Option Nat) (connected : Nat → Bool) :
    Nat → Nat → Nat → WaitResult
  | waited, delay, fuel + 1 =>
    if waited < 15000 ∧ connected waited = true then
      if sizeOk (fileSize waited) = true then
        { outcome := WaitOutcome.served (mSize (fileSize waited)), polls := [waited],
          bwAdded := mSize (fileSize waited) }
      else
        let r := pollLoop fileSize connected (waited + delay)
          (if delay < 3000 then delay + 500 else delay) fuel
        { outcome := r.outcome, polls := waited :: r.polls, bwAdded := r.bwAdded }
    else
      if connected waited = true then
        { outcome := WaitOutcome.notReady, polls := [], bwAdded := 0 }
      else
        { outcome := WaitOutcome.silent, polls := [], bwAdded := 0 }
  | waited, _, 0 =>
    if connected waited = true then
      { outcome := WaitOutcome.notReady, polls := [], bwAdded := 0 }
    else
      { outcome := WaitOutcome.silent, polls := [], bwAdded := 0 }

/-- The whole readiness wait for one request: `waited = 0`, `delay = 1000`,
with fuel 16 (sufficient: 16 sleeps of at least 1000 ms exceed the 15000 ms
budget). -/
def readinessWait (fileSize : Nat → Option Nat) (connected : Nat → Bool) : WaitResult :=
  pollLoop fileSize connected 0 1000 16

/-- One character of the `^[\w-]+$` validation pattern of the manifest
route (`\w` is ASCII `[A-Za-z0-9_]`). -/
def validChar (c : Char) : Bool :=
  c.isAlphanum || c == '_' || c == '-'

/-- `/^[\w-]+$/.test(ch)`: non-empty and every character in the class. -/
def validId (ch : String) : Bool :=
  !ch.data.isEmpty && ch.data.all validChar

/-- Split a path fragment on the `/` separator, as `path.join` does before
normalising. -/
def splitComps : List Char → List (List Char)
  | [] => [[]]
  | c :: rest =>
    let r := splitComps rest
    if c = '/' then [] :: r else (c :: r.headD []) :: r.tail

/-- One step of `path.join` normalisation over an already-normalised
absolute base: empty and `.` components vanish, `..` pops the last
component, anything else is appended. -/
def stepComp (acc : List (List Char)) (c : List Char) : List (List Char) :=
  if c = [] ∨ c = ['.'] then acc
  else if c = ['.', '.'] then acc.dropLast
  else acc ++ [c]

/-- `path.join(base, name)` for a normalised component-list `base` and a
relative fragment `name`. -/
def joinComp (base : List (List Char)) (name : List Char) : List (List Char) :=
  (splitComps name).foldl stepComp base

/-- The `STREAMS_DIR` root, as its component list (the absolute prefix
above it is common to all paths and elided). -/
def streamsRoot : List (List Char) := [['s', 't', 'r', 'e', 'a', 'm', 's']]

/-- The three paths `getPaths` computes for a channel. -/
structure ChPaths where
  dir : List (List Char)
  playlist : List (List Char)
  segments : List (List Char)
  deriving Repr, DecidableEq

/-- `getPaths(ch)`: `dir = path.join(STREAMS_DIR, ch)`,
`playlist = path.join(dir, ch + ".m3u8")`,
`segments = path.join(dir, ch + "_%03d.ts")`. -/
def getPaths (ch : String) : ChPaths :=
  let dir := joinComp streamsRoot ch.data
  { dir := dir,
    playlist := joinComp dir (ch.data ++ ['.', 'm', '3', 'u', '8']),
    segments := joinComp dir (ch.data ++ ['_', '%', '0', '3', 'd', '.', 't', 's']) }

/-! Concrete states used to evaluate the model at specific inputs. -/

/-- Zeroed counters. -/
def stats0 : Stats := { totalStarted := 0, totalStopped := 0, totalErrors := 0, bandwidth := 0 }

/-- The example channel id of the spec. -/
def ch1 : String := "news1"

/-- The empty server state. -/
def st0 : ServerState := { active := [], stats := stats0, nextPid := 1 }

/-- A playlists directory holding one configuration file for `news1`,
whose single line is the upstream URL. -/
def env1 : PlaylistsEnv :=
  { playlistFile := fun ch =>
      if ch = ch1 then some [("https://example.com/feed.m3u8")] else none }

/-- A live entry for `news1` that crashed (no intentional stop). -/
def sCrash : StreamState :=
  { pid := 3, procKilled := false, start := 0, lastAccess := 0, intentionalStop := false }

/-- A server state holding the crashing `news1` entry. -/
def stCrash : ServerState := { active := [(ch1, sCrash)], stats := stats0, nextPid := 4 }

/-- A live, never-signalled entry for `news1`. -/
def sLive : StreamState :=
  { pid := 7, procKilled := false, start := 0, lastAccess := 0, intentionalStop := false }

/-- A server state holding the live `news1` entry. -/
def stLive : ServerState := { active := [(ch1, sLive)], stats := stats0, nextPid := 8 }

/-- An idle entry for `news1`: `lastAccess = 0`, never refreshed. -/
def stIdle : ServerState := { active := [(ch1, sLive)], stats := stats0, nextPid := 8 }

/-- A manifest that becomes non-empty (42 bytes) exactly at 2500 ms. -/
def fsReady : Nat → Option Nat := fun w => if w = 2500 then some 42 else none

/-- A manifest that never appears. -/
def fsNever : Nat → Option Nat := fun _ => none

/-- A playlists directory with no configuration file at all. -/
def envEmpty : PlaylistsEnv := { playlistFile := fun _ => none }

/-- The `news1` entry after `stopStream`: flagged intentional, Node `killed`
flag set by the delivered `SIGTERM`. -/
def sStopped : StreamState :=
  { pid := 7, procKilled := true, start := 0, lastAccess := 0, intentionalStop := true }

/-! Lemmas about the registry operations. -/

theorem lookupCh_removeCh (m : List (String × StreamState)) (ch : String) :
    lookupCh (removeCh m ch) ch = none := by
  induction m with
  | nil => rfl
  | cons p t ih =>
    by_cases h : p.1 == ch
    · simp only [removeCh, List.filter_cons, h, Bool.not_true, Bool.false_eq_true,
        if_false] at ih ⊢
      exact ih
    · simp only [removeCh, List.filter_cons, h, Bool.not_false, if_true, lookupCh,
        List.find?_cons, Bool.false_eq_true] at ih ⊢
      exact ih

/-- The early-return of `startStream` when the channel is already active. -/
theorem startStream_mem_noop (env : PlaylistsEnv) (now : Nat) (ch : String)
    (rc : Nat) (st : ServerState) (h : (lookupCh st.active ch).isSome = true) :
    startStream env now ch rc st = { state := st, spawned := false, errorLogged := false } := by
  unfold startStream
  simp [h]

/-- Looking up a freshly-consed entry finds it. -/
theorem lookupCh_cons_self (m : List (String × StreamState)) (ch : String)
    (s : StreamState) :
    lookupCh ((ch, s) :: m) ch = some s := by
  unfold lookupCh
  rw [List.find?_cons_of_pos]
  · rfl
  · simp

/-- A call that spawned leaves the channel present in the registry. -/
theorem startStream_spawned_active (env : PlaylistsEnv) (now : Nat) (ch : String)
    (rc : Nat) (st : ServerState)
    (h : (startStream env now ch rc st).spawned = true) :
    (lookupCh (startStream env now ch rc st).state.active ch).isSome = true := by
  unfold startStream at h ⊢
  by_cases h0 : (lookupCh st.active ch).isSome = true
  · rw [if_pos h0] at h
    simp at h
  · rw [if_neg h0] at h ⊢
    cases hf : env.playlistFile ch with
    | none =>
      rw [hf] at h
      exact Bool.noConfusion h
    | some lines =>
      rw [hf] at h
      cases hp : parseM3U lines with
      | none => simp [hp] at h
      | some u =>
        simp only [hp]
        simp [spawnEntry, lookupCh_cons_self]

/-! Claim theorems. -/

/-- Claim C1 (code_bug evidence): the exit observer of the current server
(`src/unnamed/part_000`) does NOT delete the working directory on an
unintentional exit — `deletedDir = false` for a crashed `news1` worker —
while the old variant deletes it unconditionally.  The spec mandates
unconditional deletion, so the current server's conditional cleanup is the
bug the spec explicitly warns about. -/
theorem exit_cleanup_conditional_divergence :
    (exitObserverNew ch1 0 sCrash stCrash).2.deletedDir = false ∧
    (exitObserverOld ch1 0 sCrash stCrash).2.deletedDir = true := by
  constructor
  · simp [exitObserverNew, sCrash]
  · simp [exitObserverOld]

/-- Claim C2: on an unintentional exit with `retryCount < 3`, both variants
schedule exactly one restart, 5000 ms later, calling `startStream` with
`retryCount + 1`; with `retryCount ≥ 3` no restart is scheduled; in every
case the registry no longer holds the channel after the exit observer ran. -/
theorem exit_retry_policy (ch : String) (rc : Nat) (s : StreamState) (st : ServerState) :
    (s.intentionalStop = false → rc < 3 →
      (exitObserverOld ch rc s st).2.restartScheduled = some (5000, rc + 1) ∧
      (exitObserverNew ch rc s st).2.restartScheduled = some (5000, rc + 1)) ∧
    (s.intentionalStop = false → 3 ≤ rc →
      (exitObserverOld ch rc s st).2.restartScheduled = none ∧
      (exitObserverNew ch rc s st).2.restartScheduled = none) ∧
    lookupCh (exitObserverOld ch rc s st).1.active ch = none ∧
    lookupCh (exitObserverNew ch rc s st).1.active ch = none := by
  refine ⟨fun h1 h2 => ?_, fun h1 h2 => ?_, ?_, ?_⟩
  · constructor <;> simp [exitObserverOld, exitObserverNew, h1, h2]
  · have h3 : ¬rc < 3 := by omega
    constructor <;> simp [exitObserverOld, exitObserverNew, h1, h3]
  · simpa [exitObserverOld] using lookupCh_removeCh st.active ch
  · simpa [exitObserverNew] using lookupCh_removeCh st.active ch

/-- Claim C2 witness: concrete crashed `news1` entry at `retryCount = 0`. -/
theorem exit_retry_policy_witness :
    (exitObserverOld ch1 0 sCrash stCrash).2.restartScheduled = some (5000, 1) ∧
    (exitObserverNew ch1 0 sCrash stCrash).2.restartScheduled = some (5000, 1) ∧
    lookupCh (exitObserverOld ch1 0 sCrash stCrash).1.active ch1 = none := by
  have h := exit_retry_policy ch1 0 sCrash stCrash
  exact ⟨(h.1 (by decide) (by decide)).1, (h.1 (by decide) (by decide)).2, h.2.2.1⟩

/-- Claim C4: every live entry idle for more than `INACTIVITY_LIMIT`
(120 s) is intentionally stopped by the sweep — flag set, `SIGTERM` sent —
and the exit observer (either variant) schedules no restart for a
flagged entry. -/
theorem reaper_stops_idle (now : Nat) (st : ServerState) (ch : String) (s : StreamState)
    (hmem : (ch, s) ∈ st.active)
    (hidle : INACTIVITY_LIMIT < now - s.lastAccess) :
    ∃ s2, (ch, s2) ∈ (reaperSweep now st).active ∧ s2.intentionalStop = true ∧
      s2.procKilled = true ∧
      ∀ rc st2, (exitObserverOld ch rc s2 st2).2.restartScheduled = none ∧
                (exitObserverNew ch rc s2 st2).2.restartScheduled = none := by
  refine ⟨{ s with intentionalStop := true, procKilled := true }, ?_, rfl, rfl, ?_⟩
  · have h1 : reapEntry now (ch, s) =
        (ch, { s with intentionalStop := true, procKilled := true }) := by
      simp [reapEntry, hidle]
    have h2 := List.mem_map_of_mem (reapEntry now) hmem
    rw [h1] at h2
    simpa [reaperSweep] using h2
  · intro rc st2
    constructor <;> simp [exitObserverOld, exitObserverNew]

/-- Claim C4 witness: `news1` last touched at 0, swept at t = 200000 ms. -/
theorem reaper_stops_idle_witness :
    ∃ s2, (ch1, s2) ∈ (reaperSweep 200000 stIdle).active ∧ s2.intentionalStop = true ∧
      s2.procKilled = true ∧
      ∀ rc st2, (exitObserverOld ch1 rc s2 st2).2.restartScheduled = none ∧
                (exitObserverNew ch1 rc s2 st2).2.restartScheduled = none :=
  reaper_stops_idle 200000 stIdle ch1 sLive (by decide) (by decide)

/-- Claim C5 (code_bug evidence): `stopStream` on the live `news1` entry
flags the stop intentional, returns `true`, and its forced-kill timer does
capture only the original handle (pid 7); but because the `SIGTERM` send
already set the handle's Node `killed` flag, the timer guard
`!s.proc.killed` is false at fire time, so the `SIGKILL` never fires even
when the process has not exited by then. -/
theorem stopStream_forcekill_dead :
    (stopStream ch1 stLive).retVal = true ∧
    (stopStream ch1 stLive).sigTermSent = some sLive.pid ∧
    (stopStream ch1 stLive).forceKillTarget = some sLive.pid ∧
    lookupCh (stopStream ch1 stLive).state.active ch1 = some sStopped ∧
    sStopped.intentionalStop = true ∧
    forceKillFires sStopped.procKilled = false := by
  refine ⟨?_, ?_, ?_, ?_, rfl, rfl⟩ <;> decide

/-- Claim C6: `startStream` on an already-active channel returns with no
side effects (state unchanged, nothing spawned, nothing logged); hence a
second request racing the first spawns nothing: once a call has spawned,
any further call is a no-op on the resulting state. -/
theorem startStream_idempotent (env : PlaylistsEnv) (now now2 : Nat) (ch : String)
    (rc : Nat) (st : ServerState) :
    ((lookupCh st.active ch).isSome = true →
      startStream env now ch rc st = { state := st, spawned := false, errorLogged := false }) ∧
    ((startStream env now ch 0 st).spawned = true →
      startStream env now2 ch 0 (startStream env now ch 0 st).state =
        { state := (startStream env now ch 0 st).state, spawned := false,
          errorLogged := false }) := by
  refine ⟨fun h => startStream_mem_noop env now ch rc st h, fun h => ?_⟩
  exact startStream_mem_noop env now2 ch 0 _ (startStream_spawned_active env now ch 0 st h)

/-- Claim C6 witness: a call on the live `news1` state is the identity, and
after a fresh spawn from the empty state a second call is a no-op. -/
theorem startStream_idempotent_witness :
    startStream env1 5 ch1 0 stLive = { state := stLive, spawned := false, errorLogged := false } ∧
    startStream env1 6 ch1 0 (startStream env1 0 ch1 0 st0).state =
      { state := (startStream env1 0 ch1 0 st0).state, spawned := false,
        errorLogged := false } :=
  ⟨(startStream_idempotent env1 5 6 ch1 0 stLive).1 (by decide),
   (startStream_idempotent env1 0 6 ch1 0 st0).2 (by decide)⟩

/-- Claim C8: `stopStream` on a channel with no registry entry returns
`false` and has no side effects: state unchanged, no signal sent, no
forced-kill timer scheduled. -/
theorem stopStream_absent_noop (ch : String) (st : ServerState)
    (h : lookupCh st.active ch = none) :
    stopStream ch st =
      { state := st, retVal := false, sigTermSent := none, forceKillTarget := none } := by
  unfold stopStream
  rw [h]

/-- Claim C8 witness: stopping `news1` on the empty server state. -/
theorem stopStream_absent_noop_witness :
    stopStream ch1 st0 =
      { state := st0, retVal := false, sigTermSent := none, forceKillTarget := none } :=
  stopStream_absent_noop ch1 st0 (by decide)

/-- Claim C9: when the channel is not active and its configuration file is
missing, or yields no usable URL line, `startStream` logs the failure and
returns with the state untouched: no entry, no spawn, no counter change
(and it returns normally, so no error propagates to the HTTP handler). -/
theorem startStream_bad_config_noop (env : PlaylistsEnv) (now : Nat) (ch : String)
    (rc : Nat) (st : ServerState)
    (hAbsent : lookupCh st.active ch = none)
    (hBad : env.playlistFile ch = none ∨
      ∃ lines, env.playlistFile ch = some lines ∧ parseM3U lines = none) :
    startStream env now ch rc st = { state := st, spawned := false, errorLogged := true } := by
  rcases hBad with h | ⟨lines, h1, h2⟩
  · simp [startStream, hAbsent, h]
  · simp [startStream, hAbsent, h1, h2]

/-- Claim C9 witness: `news1` requested against an empty playlists
directory. -/
theorem startStream_bad_config_noop_witness :
    startStream envEmpty 0 ch1 0 st0 = { state := st0, spawned := false, errorLogged := true } :=
  startStream_bad_config_noop envEmpty 0 ch1 0 st0 (by decide) (Or.inl rfl)

/-! Lemmas about the poll loop. -/

/-- One-step unfolding of `pollLoop` at positive fuel. -/
theorem pollLoop_step (f : Nat → Option Nat) (c : Nat → Bool) (waited delay fuel : Nat) :
    pollLoop f c waited delay (fuel + 1) =
      if waited < 15000 ∧ c waited = true then
        if sizeOk (f waited) = true then
          { outcome := WaitOutcome.served (mSize (f waited)), polls := [waited],
            bwAdded := mSize (f waited) }
        else
          { outcome := (pollLoop f c (waited + delay)
              (if delay < 3000 then delay + 500 else delay) fuel).outcome,
            polls := waited :: (pollLoop f c (waited + delay)
              (if delay < 3000 then delay + 500 else delay) fuel).polls,
            bwAdded := (pollLoop f c (waited + delay)
              (if delay < 3000 then delay + 500 else delay) fuel).bwAdded }
      else
        if c waited = true then
          { outcome := WaitOutcome.notReady, polls := [], bwAdded := 0 }
        else
          { outcome := WaitOutcome.silent, polls := [], bwAdded := 0 } := rfl

/-- `pollLoop` at fuel 0: the loop-exit computation. -/
theorem pollLoop_zero (f : Nat → Option Nat) (c : Nat → Bool) (waited delay : Nat) :
    pollLoop f c waited delay 0 =
      if c waited = true then
        { outcome := WaitOutcome.notReady, polls := [], bwAdded := 0 }
      else
        { outcome := WaitOutcome.silent, polls := [], bwAdded := 0 } := rfl

/-- More fuel than the sleep budget can consume does not change the loop:
each iteration sleeps at least `delay ≥ 1000` ms, so once
`15000 ≤ waited + 1000 * fuel` the fuel is never exhausted.  In particular
the fuel 16 used by `readinessWait` is sufficient. -/
theorem pollLoop_fuel_stable (f : Nat → Option Nat) (c : Nat → Bool) :
    ∀ fuel waited delay, 1000 ≤ delay → 15000 ≤ waited + 1000 * fuel →
      pollLoop f c waited delay (fuel + 1) = pollLoop f c waited delay fuel := by
  intro fuel
  induction fuel with
  | zero =>
    intro waited delay _ hw
    have h15 : ¬waited < 15000 := by omega
    have hc : ¬(waited < 15000 ∧ c waited = true) := fun hx => h15 hx.1
    rw [pollLoop_step, if_neg hc, pollLoop_zero]
  | succ n ih =>
    intro waited delay hd hw
    by_cases hcond : waited < 15000 ∧ c waited = true
    · by_cases hs : sizeOk (f waited) = true
      · conv_lhs => rw [pollLoop_step]
        conv_rhs => rw [pollLoop_step]
        rw [if_pos hcond, if_pos hs, if_pos hcond, if_pos hs]
      · have hrec := ih (waited + delay) (if delay < 3000 then delay + 500 else delay)
          (by split <;> omega) (by omega)
        conv_lhs => rw [pollLoop_step]
        rw [if_pos hcond, if_neg hs, hrec]
        conv_rhs => rw [pollLoop_step]
        rw [if_pos hcond, if_neg hs]
    · conv_lhs => rw [pollLoop_step]
      rw [if_neg hcond]
      conv_rhs => rw [pollLoop_step]
      rw [if_neg hcond]

/-- If some performed poll saw a non-empty manifest, the loop's outcome is
`served` with that poll's size, and exactly that size was added to the
bandwidth counter (the loop returns at the first successful poll, so the
successful poll is unique). -/
theorem pollLoop_poll_served (f : Nat → Option Nat) (c : Nat → Bool) :
    ∀ fuel waited delay w, w ∈ (pollLoop f c waited delay fuel).polls →
      sizeOk (f w) = true →
      (pollLoop f c waited delay fuel).outcome = WaitOutcome.served (mSize (f w)) ∧
      (pollLoop f c waited delay fuel).bwAdded = mSize (f w) := by
  intro fuel
  induction fuel with
  | zero =>
    intro waited delay w hw _
    rw [pollLoop_zero] at hw
    simp [apply_ite WaitResult.polls] at hw
  | succ n ih =>
    intro waited delay w hw hsz
    by_cases hcond : waited < 15000 ∧ c waited = true
    · by_cases hs : sizeOk (f waited) = true
      · rw [pollLoop_step, if_pos hcond, if_pos hs] at hw ⊢
        simp at hw
        subst hw
        exact ⟨rfl, rfl⟩
      · rw [pollLoop_step, if_pos hcond, if_neg hs] at hw ⊢
        simp at hw
        rcases hw with hw | hw
        · subst hw
          exact absurd hsz hs
        · simpa using ih _ _ w hw hsz
    · rw [pollLoop_step, if_neg hcond] at hw
      simp [apply_ite WaitResult.polls] at hw

/-- With the consumer connected throughout and a manifest that is never
non-empty, the loop ends in the `notReady` (503) outcome. -/
theorem pollLoop_notReady (f : Nat → Option Nat) (hno : ∀ w, sizeOk (f w) = false) :
    ∀ fuel waited delay,
      (pollLoop f (fun _ => true) waited delay fuel).outcome = WaitOutcome.notReady := by
  intro fuel
  induction fuel with
  | zero =>
    intro waited delay
    rw [pollLoop_zero]
    simp
  | succ n ih =>
    intro waited delay
    by_cases hcond : waited < 15000
    · have hc2 : waited < 15000 ∧ (fun _ : Nat => true) waited = true := ⟨hcond, rfl⟩
      rw [pollLoop_step, if_pos hc2, if_neg (by simp [hno])]
      exact ih _ _
    · have hc2 : ¬(waited < 15000 ∧ (fun _ : Nat => true) waited = true) :=
        fun hx => hcond hx.1
      rw [pollLoop_step, if_neg hc2]
      simp

/-- With a consumer that disconnects at time `d` within the wait budget and
a manifest that never becomes non-empty, the loop ends silently: no 503 and
no error are sent. -/
theorem pollLoop_silent (f : Nat → Option Nat) (d : Nat)
    (hno : ∀ w, sizeOk (f w) = false) (hd : d ≤ 15000) :
    ∀ fuel waited delay, 1000 ≤ delay → 15000 < waited + 1000 * fuel →
      (pollLoop f (fun t => decide (t < d)) waited delay fuel).outcome =
        WaitOutcome.silent := by
  intro fuel
  induction fuel with
  | zero =>
    intro waited delay _ hw
    have hcut : ¬waited < d := by omega
    rw [pollLoop_zero, if_neg (by simp [hcut])]
  | succ n ih =>
    intro waited delay hdel hw
    by_cases hcond : waited < 15000 ∧ decide (waited < d) = true
    · have hrec := ih (waited + delay) (if delay < 3000 then delay + 500 else delay)
        (by split <;> omega) (by omega)
      rw [pollLoop_step, if_pos hcond, if_neg (by simp [hno])]
      exact hrec
    · have hcut : ¬waited < d := by
        intro hlt
        rcases Decidable.em (waited < 15000) with h1 | h1
        · exact hcond ⟨h1, by simpa using hlt⟩
        · omega
      rw [pollLoop_step, if_neg hcond, if_neg (by simp [hcut])]

/-- Every poll the loop performs happens at a time at which the consumer is
still connected: with a disconnect observed at time `d`, every polled
instant is strictly before `d`. -/
theorem pollLoop_polls_connected (f : Nat → Option Nat) (d : Nat) :
    ∀ fuel waited delay w,
      w ∈ (pollLoop f (fun t => decide (t < d)) waited delay fuel).polls → w < d := by
  intro fuel
  induction fuel with
  | zero =>
    intro waited delay w hw
    rw [pollLoop_zero] at hw
    simp [apply_ite WaitResult.polls] at hw
  | succ n ih =>
    intro waited delay w hw
    by_cases hcond : waited < 15000 ∧ decide (waited < d) = true
    · by_cases hs : sizeOk (f waited) = true
      · rw [pollLoop_step, if_pos hcond, if_pos hs] at hw
        simp at hw
        subst hw
        simpa using hcond.2
      · rw [pollLoop_step, if_pos hcond, if_neg hs] at hw
        simp at hw
        rcases hw with hw | hw
        · subst hw
          simpa using hcond.2
        · exact ih _ _ w hw
    · rw [pollLoop_step, if_neg hcond] at hw
      simp [apply_ite WaitResult.polls] at hw

/-- Claim C3: with the consumer connected throughout, the readiness wait
serves the manifest at any poll that finds it non-empty, adding exactly the
file's byte size to the bandwidth counter at that moment; and when the
manifest never becomes non-empty it ends with the "not ready" (503)
outcome after the 15 s budget. -/
theorem waiter_ready_and_timeout (f : Nat → Option Nat) :
    (∀ w, w ∈ (readinessWait f (fun _ => true)).polls → sizeOk (f w) = true →
      (readinessWait f (fun _ => true)).outcome = WaitOutcome.served (mSize (f w)) ∧
      (readinessWait f (fun _ => true)).bwAdded = mSize (f w)) ∧
    ((∀ w, sizeOk (f w) = false) →
      (readinessWait f (fun _ => true)).outcome = WaitOutcome.notReady) := by
  constructor
  · intro w hw hsz
    exact pollLoop_poll_served f (fun _ => true) 16 0 1000 w hw hsz
  · intro hno
    exact pollLoop_notReady f hno 16 0 1000

/-- Claim C3 witness: a manifest of 42 bytes appearing at 2500 ms is served
with 42 bytes of bandwidth accounted; a manifest that never appears ends
in `notReady`. -/
theorem waiter_ready_and_timeout_witness :
    (readinessWait fsReady (fun _ => true)).outcome = WaitOutcome.served 42 ∧
    (readinessWait fsReady (fun _ => true)).bwAdded = 42 ∧
    (readinessWait fsNever (fun _ => true)).outcome = WaitOutcome.notReady := by
  have h1 := (waiter_ready_and_timeout fsReady).1 2500 (by decide) (by decide)
  have h2 := (waiter_ready_and_timeout fsNever).2 (fun _ => rfl)
  exact ⟨h1.1.trans (by decide), h1.2.trans (by decide), h2⟩

/-- Claim C7: with a consumer disconnect observed at time `d`, every
file-system poll the loop performs happens strictly before `d` (no further
poll once the disconnect is observed), and — when the manifest never became
non-empty before the disconnect — the request ends silently: no response
and no error are sent. -/
theorem waiter_disconnect_aborts (f : Nat → Option Nat) (d : Nat) :
    (∀ w, w ∈ (readinessWait f (fun t => decide (t < d))).polls → w < d) ∧
    (d ≤ 15000 → (∀ w, sizeOk (f w) = false) →
      (readinessWait f (fun t => decide (t < d))).outcome = WaitOutcome.silent) := by
  constructor
  · intro w hw
    exact pollLoop_polls_connected f d 16 0 1000 w hw
  · intro hd hno
    exact pollLoop_silent f d hno hd 16 0 1000 (by omega) (by omega)

/-- Claim C7 witness: consumer gone at 2000 ms, manifest never ready: the
request ends silently, and the poll performed at 1000 ms predates the
disconnect. -/
theorem waiter_disconnect_aborts_witness :
    (readinessWait fsNever (fun t => decide (t < 2000))).outcome = WaitOutcome.silent ∧
    1000 < 2000 :=
  ⟨(waiter_disconnect_aborts fsNever 2000).2 (by omega) (fun _ => rfl),
   (waiter_disconnect_aborts fsNever 2000).1 1000 (by decide)⟩

/-! Lemmas about the path model. -/

/-- A valid id is non-empty and made of valid characters only. -/
theorem validId_chars (ch : String) (h : validId ch = true) :
    ch.data ≠ [] ∧ ∀ x ∈ ch.data, validChar x = true := by
  unfold validId at h
  rw [Bool.and_eq_true] at h
  constructor
  · intro he
    rw [he] at h
    exact Bool.noConfusion h.1
  · simpa [List.all_eq_true] using h.2

/-- A character of the `[\w-]` class is neither the path separator nor a
dot. -/
theorem validChar_not_special (c : Char) (h : validChar c = true) :
    c ≠ '/' ∧ c ≠ '.' := by
  refine ⟨fun he => ?_, fun he => ?_⟩ <;> subst he <;> exact absurd h (by decide)

/-- A slash-free fragment is a single path component. -/
theorem splitComps_no_slash (cs : List Char) (h : ∀ x ∈ cs, x ≠ '/') :
    splitComps cs = [cs] := by
  induction cs with
  | nil => rfl
  | cons c t ih =>
    have hc : c ≠ '/' := h c (by simp)
    have ht : splitComps t = [t] := ih (fun x hx => h x (by simp [hx]))
    simp [splitComps, hc, ht]

/-- Joining one slash-free, non-trivial component appends exactly it. -/
theorem joinComp_single (base : List (List Char)) (name : List Char)
    (hs : ∀ x ∈ name, x ≠ '/') (h0 : name ≠ []) (h1 : name ≠ ['.'])
    (h2 : name ≠ ['.', '.']) :
    joinComp base name = base ++ [name] := by
  unfold joinComp
  rw [splitComps_no_slash name hs]
  simp [stepComp, h0, h1, h2]

/-- Appending anything to a non-empty fragment whose characters are not
dots cannot produce the empty, `.` or `..` component. -/
theorem comp_no_dots (pre suf : List Char) (hpre : pre ≠ [])
    (hdot : ∀ x ∈ pre, x ≠ '.') :
    pre ++ suf ≠ [] ∧ pre ++ suf ≠ ['.'] ∧ pre ++ suf ≠ ['.', '.'] := by
  rcases pre with _ | ⟨c, t⟩
  · exact absurd rfl hpre
  · have hc : c ≠ '.' := hdot c (by simp)
    refine ⟨by simp, fun he => ?_, fun he => ?_⟩
    · rw [List.cons_append] at he
      injection he with h1 _
      exact hc h1
    · rw [List.cons_append] at he
      injection he with h1 _
      exact hc h1

/-- Concatenating slash-free fragments stays slash-free. -/
theorem append_no_slash (pre suf : List Char) (h1 : ∀ x ∈ pre, x ≠ '/')
    (h2 : ∀ x ∈ suf, x ≠ '/') : ∀ x ∈ pre ++ suf, x ≠ '/' := by
  intro x hx
  rcases List.mem_append.mp hx with h | h
  · exact h1 x h
  · exact h2 x h

/-- Claim C10: for every channel id accepted by the route's `^[\w-]+$`
validation, the three paths computed by `getPaths` normalise to the streams
root followed by the id as exactly one component (plus one file component
below it), so every accepted id yields paths strictly inside the streams
directory: no traversal outside it is possible. -/
theorem getPaths_inside_streams (ch : String) (h : validId ch = true) :
    (getPaths ch).dir = streamsRoot ++ [ch.data] ∧
    (getPaths ch).playlist =
      streamsRoot ++ [ch.data, ch.data ++ ['.', 'm', '3', 'u', '8']] ∧
    (getPaths ch).segments =
      streamsRoot ++ [ch.data, ch.data ++ ['_', '%', '0', '3', 'd', '.', 't', 's']] ∧
    (∃ r, r ≠ [] ∧ (getPaths ch).dir = streamsRoot ++ r) ∧
    (∃ r, r ≠ [] ∧ (getPaths ch).playlist = streamsRoot ++ r) ∧
    (∃ r, r ≠ [] ∧ (getPaths ch).segments = streamsRoot ++ r) := by
  obtain ⟨hne, hall⟩ := validId_chars ch h
  have hslash : ∀ x ∈ ch.data, x ≠ '/' :=
    fun x hx => (validChar_not_special x (hall x hx)).1
  have hdot : ∀ x ∈ ch.data, x ≠ '.' :=
    fun x hx => (validChar_not_special x (hall x hx)).2
  have hch1 : ch.data ≠ ['.'] := by
    intro he
    exact hdot '.' (by rw [he]; simp) rfl
  have hch2 : ch.data ≠ ['.', '.'] := by
    intro he
    exact hdot '.' (by rw [he]; simp) rfl
  have hdir : joinComp streamsRoot ch.data = streamsRoot ++ [ch.data] :=
    joinComp_single _ _ hslash hne hch1 hch2
  obtain ⟨hp0, hp1, hp2⟩ :=
    comp_no_dots ch.data ['.', 'm', '3', 'u', '8'] hne hdot
  obtain ⟨hg0, hg1, hg2⟩ :=
    comp_no_dots ch.data ['_', '%', '0', '3', 'd', '.', 't', 's'] hne hdot
  have hpl : joinComp (streamsRoot ++ [ch.data]) (ch.data ++ ['.', 'm', '3', 'u', '8']) =
      (streamsRoot ++ [ch.data]) ++ [ch.data ++ ['.', 'm', '3', 'u', '8']] :=
    joinComp_single _ _ (append_no_slash _ _ hslash (by decide)) hp0 hp1 hp2
  have hsg : joinComp (streamsRoot ++ [ch.data])
        (ch.data ++ ['_', '%', '0', '3', 'd', '.', 't', 's']) =
      (streamsRoot ++ [ch.data]) ++ [ch.data ++ ['_', '%', '0', '3', 'd', '.', 't', 's']] :=
    joinComp_single _ _ (append_no_slash _ _ hslash (by decide)) hg0 hg1 hg2
  have e1 : (getPaths ch).dir = streamsRoot ++ [ch.data] := by
    simp [getPaths, hdir]
  have e2 : (getPaths ch).playlist =
      streamsRoot ++ [ch.data, ch.data ++ ['.', 'm', '3', 'u', '8']] := by
    simp [getPaths, hdir, hpl]
  have e3 : (getPaths ch).segments =
      streamsRoot ++ [ch.data, ch.data ++ ['_', '%', '0', '3', 'd', '.', 't', 's']] := by
    simp [getPaths, hdir, hsg]
  exact ⟨e1, e2, e3, ⟨[ch.data], by simp, e1⟩,
    ⟨[ch.data, ch.data ++ ['.', 'm', '3', 'u', '8']], by simp, e2⟩,
    ⟨[ch.data, ch.data ++ ['_', '%', '0', '3', 'd', '.', 't', 's']], by simp, e3⟩⟩

/-- Claim C10 witness: the spec's example id `news1`. -/
theorem getPaths_inside_streams_witness :
    (getPaths ch1).dir = streamsRoot ++ [ch1.data] ∧
    (getPaths ch1).playlist =
      streamsRoot ++ [ch1.data, ch1.data ++ ['.', 'm', '3', 'u', '8']] ∧
    (getPaths ch1).segments =
      streamsRoot ++ [ch1.data, ch1.data ++ ['_', '%', '0', '3', 'd', '.', 't', 's']] ∧
    (∃ r, r ≠ [] ∧ (getPaths ch1).dir = streamsRoot ++ r) ∧
    (∃ r, r ≠ [] ∧ (getPaths ch1).playlist = streamsRoot ++ r) ∧
    (∃ r, r ≠ [] ∧ (getPaths ch1).segments = streamsRoot ++ r) :=
  getPaths_inside_streams ch1 (by decide)

end HLS
